import Mathlib

/-! Verification of the RAG-experiment repository.

A shallow embedding of the code under src/:
the prompt assembly and fallback logic of src/query_ollama.py,
the answer-agreement judge and evaluation loop of src/qa_test_runner.py,
the asynchronous task poller and readiness poll of src/opensearch_setup.py,
and the neural-search query builder of src/query_wikipedia.py.

Modelling conventions: Python strings are lists of characters; the external
services (OpenSearch, Ollama) are deterministic oracles passed as arguments;
a Python call that may raise is an Except value; a value that may be None is
an Option; the poll loops use the idealisation that a status fetch takes no
time and each sleep takes exactly the fixed interval, so the elapsed wall
time before iteration k is k times the interval. -/

set_option maxRecDepth 8000

deriving instance DecidableEq for Except

/-- Python substring containment (the in operator on str), as a Boolean
contiguous-sublist test. -/
def containsTok (tok s : List Char) : Bool :=
  decide (tok <:+: s)

/-- Characters removed by Python str.strip on ASCII data: space, tab,
newline, vertical tab, form feed, carriage return. -/
def isPySpace (c : Char) : Bool :=
  c == ' ' || c == '\t' || c == '\n' || c == '\x0b' || c == '\x0c' || c == '\r'

/-- Python str.strip: drop leading and trailing whitespace. -/
def pyStrip (s : List Char) : List Char :=
  ((s.dropWhile isPySpace).reverse.dropWhile isPySpace).reverse

/-- Python str.upper on ASCII content. -/
def pyUpper (s : List Char) : List Char :=
  s.map Char.toUpper

/-- The passage field of a search hit source object (qa hit source may lack
the key, hence Option). From the shape read by query_ollama.py lines 74-81. -/
structure HitSource where
  passage : Option (List Char)

/-- One search hit; the source object may be absent. -/
structure SearchHit where
  source : Option HitSource

/-- The inner hits object of an OpenSearch response. -/
structure SearchHits where
  hits : Option (List SearchHit)

/-- The outer search response; the hits object may be absent. -/
structure SearchResults where
  hits : Option SearchHits

/-- The passage-truncation step of query_gemma3_model_with_rag
(query_ollama.py lines 78-80): passages longer than 300 characters are cut
to their 300-character prefix followed by the marker. -/
def truncatePassage (passage : List Char) : List Char :=
  if 300 < passage.length then passage.take 300 ++ "...".data else passage

/-- The context-passage extraction loop of query_gemma3_model_with_rag
(query_ollama.py lines 72-81): guarded field accesses, then truncation. -/
def extractContextPassages (res : SearchResults) : List (List Char) :=
  match res.hits with
  | none => []
  | some outer =>
    match outer.hits with
    | none => []
    | some hitList =>
      hitList.filterMap fun h => (h.source.bind HitSource.passage).map truncatePassage

/-- One numbered entry of the CONTEXT section (query_ollama.py line 85). -/
def contextEntry (i : Nat) (passage : List Char) : List Char :=
  ("Context " ++ Nat.repr (i + 1) ++ ": ").data ++ passage

/-- The joined context text (query_ollama.py line 85). -/
def contextText (passages : List (List Char)) : List Char :=
  List.intercalate "\n\n".data (passages.mapIdx contextEntry)

/-- Fixed text before the question in the grounded prompt
(query_ollama.py lines 86-95). -/
def ragContextPre : List Char := "\n            QUESTION:\n            ".data

/-- Fixed text between the question and the context in the grounded prompt. -/
def ragContextMid : List Char := "\n\n            CONTEXT:\n            ".data

/-- Fixed instruction text closing the grounded prompt. -/
def ragContextSuf : List Char :=
  ("\n\n            Using the CONTEXT provided, answer the QUESTION. Keep your answer grounded in the facts of the CONTEXT. If the CONTEXT doesn\x27t contain the answer to the QUESTION, say you don\x27t know.\n            Answer in a single word or a short sentence. Do not ask follow-up questions or make suggestions.\n            ").data

/-- The grounded prompt assembled when context passages exist
(query_ollama.py lines 84-95). -/
def buildRagPrompt (prompt ctx : List Char) : List Char :=
  ragContextPre ++ prompt ++ ragContextMid ++ ctx ++ ragContextSuf

/-- Fixed text before the question in the zero-context prompt
(query_ollama.py lines 96-102). -/
def ragZeroPre : List Char := "\n            ".data

/-- Fixed text after the question in the zero-context prompt. -/
def ragZeroSuf : List Char :=
  "\n\n            Answer in a single word or a short sentence. Do not ask follow-up questions or make suggestions.\n        ".data

/-- The prompt query_gemma3_model_with_rag sends when no context passage was
retrieved (query_ollama.py lines 96-102). -/
def ragZeroPrompt (prompt : List Char) : List Char :=
  ragZeroPre ++ prompt ++ ragZeroSuf

/-- Fixed instruction appended by the non-RAG path of evaluate_with_ollama
(qa_test_runner.py line 100). -/
def nonRagSuf : List Char :=
  "\n\nAnswer in a single word or a short sentence. Do not ask follow-up questions or make suggestions.".data

/-- The prompt the non-RAG path of evaluate_with_ollama sends
(qa_test_runner.py line 100). -/
def nonRagPrompt (question : List Char) : List Char :=
  question ++ nonRagSuf

/-- The prompt the grounded path sends for given search results: the
zero-context template when no passage was extracted, the CONTEXT template
otherwise (query_ollama.py lines 83-102; the Python truthiness test on the
passage list is emptiness). -/
def ragPromptFor (prompt : List Char) (res : SearchResults) : List Char :=
  let ctx := extractContextPassages res
  if ctx.isEmpty then ragZeroPrompt prompt else buildRagPrompt prompt (contextText ctx)

/-- The external world seen by query_ollama.py: the OpenSearch ping (which
may raise or answer false), the search call (which may raise), and the
Ollama chat call on a given prompt (which may raise, or succeed with
well-formed content, or succeed with a malformed response, i.e. ok none). -/
structure RagWorld where
  ping : Except String Bool
  search : Except String SearchResults
  chat : List Char → Except String (Option (List Char))

/-- query_gemma3_model (query_ollama.py lines 6-42): chat with the backend;
an exception or a malformed response becomes None; it never raises. -/
def query_gemma3_model (w : RagWorld) (prompt : List Char) : Option (List Char) :=
  match w.chat prompt with
  | .error _ => none
  | .ok content => content

/-- query_gemma3_model_with_rag (query_ollama.py lines 45-128): ping the
search backend, fall back to the plain query when unreachable; search, build
the grounded prompt, chat; the except clause around the whole body turns any
raised error into the plain fallback query on the original prompt, while a
malformed chat response on the grounded path is returned as None directly. -/
def query_gemma3_model_with_rag (w : RagWorld) (prompt : List Char) : Option (List Char) :=
  match w.ping with
  | .error _ => query_gemma3_model w prompt
  | .ok false => query_gemma3_model w prompt
  | .ok true =>
    match w.search with
    | .error _ => query_gemma3_model w prompt
    | .ok res =>
      match w.chat (ragPromptFor prompt res) with
      | .error _ => query_gemma3_model w prompt
      | .ok content => content

/-- The token looked for by the judge. -/
def correctTok : List Char := "CORRECT".data

/-- The negative token looked for by the judge. -/
def incorrectTok : List Char := "INCORRECT".data

/-- The comparison prompt of compare_answers_with_gemma
(qa_test_runner.py lines 45-50). -/
def comparisonPrompt (gemmaAnswer correctAnswer : List Char) : List Char :=
  "Compare these two answers for semantic equivalence:\n\nAnswer 1: ".data ++
    gemmaAnswer ++ "\nAnswer 2: ".data ++ correctAnswer ++
    "\n\nAre these answers semantically equivalent? Answer only \"CORRECT\" if they are equivalent or \"INCORRECT\" if they are not. Do not elaborate.".data

/-- compare_answers_with_gemma (qa_test_runner.py lines 34-64): query the
backend with the comparison prompt; on a truthy reply, strip, uppercase and
look for the tokens as substrings; an absent or falsy (empty) reply yields
the ERROR outcome. -/
def compare_answers_with_gemma (w : RagWorld) (gemmaAnswer correctAnswer : List Char) : String :=
  match query_gemma3_model w (comparisonPrompt gemmaAnswer correctAnswer) with
  | none => "ERROR"
  | some reply =>
    if reply.isEmpty then "ERROR"
    else
      let result := pyUpper (pyStrip reply)
      if containsTok correctTok result && !(containsTok incorrectTok result) then "CORRECT"
      else if containsTok incorrectTok result then "INCORRECT"
      else "ERROR"

/-- A question-answer sample from the dataset. -/
structure QASample where
  question : List Char
  answer : List Char

/-- One entry of the answer_pairs list built by evaluate_with_ollama. -/
structure AnswerPair where
  question : List Char
  gemma_answer : List Char
  correct_answer : List Char

/-- The dictionary returned by evaluate_with_ollama. -/
structure EvalResult where
  answer_pairs : List AnswerPair
  total_questions : Nat
  correct_count : Nat
  percentage : ℚ

/-- The sentinel stored when the backend produced no usable response
(qa_test_runner.py lines 103-104). -/
def noResponseChars : List Char := "[NO RESPONSE]".data

/-- The per-question response of evaluate_with_ollama (qa_test_runner.py
lines 95-104): RAG or plain query, with a falsy (absent or empty) response
replaced by the sentinel. -/
def gemmaAnswerFor (w : RagWorld) (useRag : Bool) (question : List Char) : List Char :=
  let response :=
    if useRag then query_gemma3_model_with_rag w question
    else query_gemma3_model w (nonRagPrompt question)
  match response with
  | none => noResponseChars
  | some r => if r.isEmpty then noResponseChars else r

/-- evaluate_with_ollama (qa_test_runner.py lines 67-113): build the answer
pairs; the returned correct_count and percentage are the literal zeros of
line 113 (line 85 for an empty sample list). -/
def evaluate_with_ollama (w : RagWorld) (qaSamples : List QASample) (useRag : Bool) : EvalResult :=
  if qaSamples.isEmpty then ⟨[], 0, 0, 0⟩
  else
    ⟨qaSamples.map fun s => ⟨s.question, gemmaAnswerFor w useRag s.question, s.answer⟩,
      qaSamples.length, 0, 0⟩

/-- calculate_accuracy (qa_test_runner.py lines 170-196): returns the tuple
of total questions, correct count and percentage; pairs whose gemma answer
is the sentinel are skipped before the judge is invoked. -/
def calculate_accuracy (w : RagWorld) (evaluationResults : EvalResult) : Nat × Nat × ℚ :=
  if evaluationResults.answer_pairs.isEmpty then (0, 0, 0)
  else
    let total := evaluationResults.answer_pairs.length
    let correct := evaluationResults.answer_pairs.foldl
      (fun acc pr =>
        if pr.gemma_answer = noResponseChars then acc
        else if compare_answers_with_gemma w pr.gemma_answer pr.correct_answer = "CORRECT" then
          acc + 1
        else acc) 0
    (total, correct, if 0 < total then ((correct : ℚ) / (total : ℚ)) * 100 else 0)

/-- A task-status response of the ML tasks endpoint (opensearch_setup.py
lines 196-212): each field read with dict.get, hence optional. -/
structure TaskResponse where
  state : Option String
  model_id : Option String
  error : Option String

/-- What wait_for_task_completion does on return: the registration model id
(itself optional in the response), an upstream failure message, or the
expiry of the timeout. -/
inductive PollOutcome where
  | completed (modelId : Option String)
  | taskFailed (err : String)
  | timedOut
deriving DecidableEq

/-- An instrumented run of the poll loop: its outcome together with the
number of status fetches and of sleeps it performed. -/
structure PollRun where
  outcome : PollOutcome
  fetches : Nat
  sleeps : Nat
deriving DecidableEq

/-- The loop body of wait_for_task_completion (opensearch_setup.py lines
192-218) started at iteration k: the loop runs while the elapsed time
(5 seconds per completed sleep, so 5 * k before iteration k) is below the
timeout; COMPLETED returns the response model id for a registration and the
argument model id for a deployment, FAILED raises with the reported error
message (defaulting to the literal used by dict.get), anything else sleeps
the 5-second interval and retries. -/
def waitGo (fetch : Nat → TaskResponse) (operation : String) (modelId : Option String)
    (timeout k : Nat) : PollRun :=
  if h : 5 * k < timeout then
    if (fetch k).state = some "COMPLETED" ∧ operation = "registration" then
      ⟨.completed (fetch k).model_id, k + 1, k⟩
    else if (fetch k).state = some "COMPLETED" ∧ operation = "deployment" then
      ⟨.completed modelId, k + 1, k⟩
    else if (fetch k).state = some "FAILED" then
      ⟨.taskFailed (((fetch k).error).getD "Unknown error"), k + 1, k⟩
    else
      waitGo fetch operation modelId timeout (k + 1)
  else ⟨.timedOut, k, k⟩
termination_by timeout - 5 * k
decreasing_by omega

/-- wait_for_task_completion (opensearch_setup.py lines 177-218). -/
def wait_for_task_completion (fetch : Nat → TaskResponse) (operation : String)
    (modelId : Option String) (timeout : Nat) : PollRun :=
  waitGo fetch operation modelId timeout 0

/-- A task state on which the poller keeps polling. -/
def nonTerminal (r : TaskResponse) : Prop :=
  r.state ≠ some "COMPLETED" ∧ r.state ≠ some "FAILED"

instance (r : TaskResponse) : Decidable (nonTerminal r) := by
  unfold nonTerminal; infer_instance

/-- What verify_model_ready does on return. -/
inductive VerifyOutcome where
  | ready
  | timedOut
deriving DecidableEq

/-- An instrumented run of the readiness poll. -/
structure VerifyRun where
  outcome : VerifyOutcome
  fetches : Nat
  sleeps : Nat
deriving DecidableEq

/-- The loop body of verify_model_ready (opensearch_setup.py lines 230-257)
started at iteration k: a status fetch may raise (error) or yield the
optional model_state field; only the state DEPLOYED returns; every other
state, a missing state field and every fetch error sleep the 10-second
interval and retry; the loop runs while the elapsed time (10 * k before
iteration k) is below the timeout. -/
def verifyGo (fetch : Nat → Except String (Option String)) (timeout k : Nat) : VerifyRun :=
  if h : 10 * k < timeout then
    if fetch k = .ok (some "DEPLOYED") then ⟨.ready, k + 1, k⟩
    else verifyGo fetch timeout (k + 1)
  else ⟨.timedOut, k, k⟩
termination_by timeout - 10 * k
decreasing_by omega

/-- verify_model_ready (opensearch_setup.py lines 221-257). -/
def verify_model_ready (fetch : Nat → Except String (Option String)) (timeout : Nat) : VerifyRun :=
  verifyGo fetch timeout 0

/-- The neural search request built by search_wikipedia_articles
(query_wikipedia.py lines 50-67). -/
structure NeuralQuery where
  source_excludes : List String
  size : Nat
  query_text : List Char
  model_id : String
  k : Nat
deriving DecidableEq

/-- search_wikipedia_articles (query_wikipedia.py lines 32-75) up to the
submission of the request: a falsy (absent or empty) OPENSEARCH_MODEL_ID
environment variable raises ValueError before any request is built; a
truthy value is embedded verbatim in the submitted neural query. -/
def search_wikipedia_articles (envModelId : Option String) (queryText : List Char)
    (k size : Nat) : Except String NeuralQuery :=
  match envModelId with
  | none =>
    .error "OPENSEARCH_MODEL_ID environment variable not set. Please run opensearch_setup.py first."
  | some m =>
    if m = "" then
      .error "OPENSEARCH_MODEL_ID environment variable not set. Please run opensearch_setup.py first."
    else
      .ok ⟨["passage_embedding"], size, queryText, m, k⟩

/-- Whitespace removal, used to compare prompt templates up to their fixed
layout characters. -/
def stripWs (s : List Char) : List Char :=
  s.filter fun c => !(isPySpace c)

/-- Search results whose hit list wraps the given passages. -/
def mkResults (passages : List (List Char)) : SearchResults :=
  ⟨some ⟨some (passages.map fun t => ⟨some ⟨some t⟩⟩)⟩⟩

/-- Search results with a present but empty hit list. -/
def emptyResults : SearchResults :=
  mkResults []

/-- A world whose backend replies with both judge tokens. -/
def wBothTokens : RagWorld :=
  ⟨.ok true, .ok emptyResults, fun _ => .ok (some "CORRECT INCORRECT".data)⟩

/-- A world whose backend replies with the positive token only. -/
def wOnlyCorrect : RagWorld :=
  ⟨.ok true, .ok emptyResults, fun _ => .ok (some "CORRECT".data)⟩

/-- A world whose generation backend is unreachable. -/
def wChatDown : RagWorld :=
  ⟨.ok true, .ok emptyResults, fun _ => .error "connection refused"⟩

/-- A world where the grounded path succeeds but the backend answers the
zero-context grounded prompt for the question hi with a malformed response,
while answering every other prompt normally. -/
def wMalformedRag : RagWorld :=
  ⟨.ok true, .ok emptyResults,
    fun p => if p = ragZeroPrompt "hi".data then .ok none else .ok (some "ok".data)⟩

/-- A world whose search ping raises. -/
def wPingErr : RagWorld :=
  ⟨.error "connect timeout", .ok emptyResults, fun _ => .ok (some "ans".data)⟩

/-- A world whose search ping answers false. -/
def wPingFalse : RagWorld :=
  ⟨.ok false, .ok emptyResults, fun _ => .ok (some "ans".data)⟩

/-- A world whose search call raises. -/
def wSearchErr : RagWorld :=
  ⟨.ok true, .error "search exploded", fun _ => .ok (some "ans".data)⟩

/-- A world where the chat on the grounded prompt for the question q raises
while the chat on the plain question succeeds. -/
def wRagChatErr : RagWorld :=
  ⟨.ok true, .ok emptyResults,
    fun p => if p = ragZeroPrompt "q".data then .error "boom" else .ok (some "fb".data)⟩

/-- The status trace of the end-to-end polling scenario: RUNNING twice, then
COMPLETED with model id m1. -/
def fetchC4 : Nat → TaskResponse
  | 0 => ⟨some "RUNNING", none, none⟩
  | 1 => ⟨some "RUNNING", none, none⟩
  | _ + 2 => ⟨some "COMPLETED", some "m1", none⟩

/-- A status trace that runs once and then fails with message boom. -/
def fetchFail : Nat → TaskResponse
  | 0 => ⟨some "RUNNING", none, none⟩
  | _ + 1 => ⟨some "FAILED", none, some "boom"⟩

/-- A model-status trace that reports DEPLOYED at once. -/
def fetchDeployed : Nat → Except String (Option String) :=
  fun _ => .ok (some "DEPLOYED")

/-- A world whose backend replies with neither judge token. -/
def wNeither : RagWorld :=
  ⟨.ok true, .ok emptyResults, fun _ => .ok (some "MAYBE".data)⟩

/-- An evaluation result holding a single pair whose gemma answer is the
no-response sentinel. -/
def erNR : EvalResult :=
  ⟨[⟨"q".data, noResponseChars, "a".data⟩], 1, 0, 0⟩

theorem stripWs_append (a b : List Char) : stripWs (a ++ b) = stripWs a ++ stripWs b := by
  simp [stripWs, List.filter_append]

theorem stripWs_ragZeroPre : stripWs ragZeroPre = [] := by decide

theorem stripWs_zero_suffix : stripWs ragZeroSuf = stripWs nonRagSuf := by decide

theorem extract_mkResults (ps : List (List Char)) :
    extractContextPassages (mkResults ps) = ps.map truncatePassage := by
  induction ps with
  | nil => rfl
  | cons hd tl ih =>
    show truncatePassage hd :: extractContextPassages (mkResults tl) = _
    rw [ih, List.map_cons]

/-- The judge as a function of the backend reply, stated once for reuse in
the per-case classification proofs. -/
theorem compare_eq_of_query (w : RagWorld) (g c : List Char) :
    compare_answers_with_gemma w g c =
      match query_gemma3_model w (comparisonPrompt g c) with
      | none => "ERROR"
      | some reply =>
        if reply.isEmpty then "ERROR"
        else
          if containsTok correctTok (pyUpper (pyStrip reply)) &&
              !(containsTok incorrectTok (pyUpper (pyStrip reply))) then "CORRECT"
          else if containsTok incorrectTok (pyUpper (pyStrip reply)) then "INCORRECT"
          else "ERROR" := rfl

/-- C1 counterexample: the judge classifies a reply containing both tokens
as INCORRECT, not as the claimed third outcome ERROR (the branch for
INCORRECT fires whenever the token INCORRECT is present, even when CORRECT
is present too). -/
theorem judge_both_tokens_counterexample :
    containsTok correctTok (pyUpper (pyStrip "CORRECT INCORRECT".data)) = true ∧
    containsTok incorrectTok (pyUpper (pyStrip "CORRECT INCORRECT".data)) = true ∧
    compare_answers_with_gemma wBothTokens "a".data "b".data = "INCORRECT" := by
  refine ⟨by decide, by decide, ?_⟩
  rw [compare_eq_of_query]
  show (if ("CORRECT INCORRECT".data).isEmpty then "ERROR" else _) = "INCORRECT"
  rw [if_neg (by decide)]
  rw [if_neg (by decide), if_pos (by decide)]

/-- C1 (amended): the judge never raises and classifies the backend reply as
follows: an absent reply gives ERROR; a reply whose stripped uppercase form
contains the token INCORRECT gives INCORRECT (this includes a reply
containing both tokens); a reply containing CORRECT but not INCORRECT gives
CORRECT; a reply containing neither token gives ERROR. -/
theorem judge_classification (w : RagWorld) (g c : List Char) :
    (query_gemma3_model w (comparisonPrompt g c) = none →
      compare_answers_with_gemma w g c = "ERROR") ∧
    (∀ r, query_gemma3_model w (comparisonPrompt g c) = some r →
      containsTok incorrectTok (pyUpper (pyStrip r)) = true →
      compare_answers_with_gemma w g c = "INCORRECT") ∧
    (∀ r, query_gemma3_model w (comparisonPrompt g c) = some r →
      containsTok correctTok (pyUpper (pyStrip r)) = true →
      containsTok incorrectTok (pyUpper (pyStrip r)) = false →
      compare_answers_with_gemma w g c = "CORRECT") ∧
    (∀ r, query_gemma3_model w (comparisonPrompt g c) = some r →
      containsTok correctTok (pyUpper (pyStrip r)) = false →
      containsTok incorrectTok (pyUpper (pyStrip r)) = false →
      compare_answers_with_gemma w g c = "ERROR") := by
  refine ⟨?_, ?_, ?_, ?_⟩
  · intro hq
    rw [compare_eq_of_query, hq]
  · intro r hq hinc
    rw [compare_eq_of_query, hq]
    by_cases hr : r.isEmpty
    · have : r = [] := List.isEmpty_iff.mp hr
      subst this
      exact absurd hinc (by decide)
    · simp [hr, hinc]
  · intro r hq hcor hinc
    rw [compare_eq_of_query, hq]
    have hr : ¬ r.isEmpty = true := by
      intro hr
      have : r = [] := List.isEmpty_iff.mp hr
      subst this
      exact absurd hcor (by decide)
    simp [hr, hcor, hinc]
  · intro r hq hcor hinc
    rw [compare_eq_of_query, hq]
    by_cases hr : r.isEmpty
    · simp [hr]
    · simp [hr, hcor, hinc]

/-- C1 witness: the amended classification applied at concrete worlds for
each of its four cases. -/
theorem judge_classification_witness :
    compare_answers_with_gemma wChatDown "a".data "b".data = "ERROR" ∧
    compare_answers_with_gemma wBothTokens "a".data "b".data = "INCORRECT" ∧
    compare_answers_with_gemma wOnlyCorrect "a".data "b".data = "CORRECT" ∧
    compare_answers_with_gemma wNeither "a".data "b".data = "ERROR" :=
  ⟨(judge_classification wChatDown "a".data "b".data).1 rfl,
    (judge_classification wBothTokens "a".data "b".data).2.1 "CORRECT INCORRECT".data rfl
      (by decide),
    (judge_classification wOnlyCorrect "a".data "b".data).2.2.1 "CORRECT".data rfl
      (by decide) (by decide),
    (judge_classification wNeither "a".data "b".data).2.2.2 "MAYBE".data rfl
      (by decide) (by decide)⟩

/-- C2: when the grounded path retrieves zero passages, its prompt is the
question wrapped in fixed boilerplate, the non-RAG prompt is the question
followed by fixed boilerplate, and the two prompts agree byte for byte once
the fixed whitespace layout is removed (the instructional sentence is
identical in both). -/
theorem rag_zero_prompt_matches_non_rag (q : List Char) (res : SearchResults)
    (hempty : extractContextPassages res = []) :
    ragPromptFor q res = ragZeroPre ++ q ++ ragZeroSuf ∧
    nonRagPrompt q = q ++ nonRagSuf ∧
    stripWs (ragPromptFor q res) = stripWs (nonRagPrompt q) := by
  have h1 : ragPromptFor q res = ragZeroPre ++ q ++ ragZeroSuf := by
    simp [ragPromptFor, hempty, ragZeroPrompt]
  refine ⟨h1, rfl, ?_⟩
  rw [h1]
  simp only [nonRagPrompt, stripWs_append]
  rw [stripWs_ragZeroPre, stripWs_zero_suffix]
  simp

/-- C2 witness: the zero-passage prompt comparison at a concrete question
and concrete empty search results. -/
theorem rag_zero_prompt_matches_non_rag_witness :
    extractContextPassages emptyResults = [] ∧
    stripWs (ragPromptFor "hi".data emptyResults) = stripWs (nonRagPrompt "hi".data) :=
  ⟨rfl, (rag_zero_prompt_matches_non_rag "hi".data emptyResults rfl).2.2⟩

/-- C5 counterexample: for the passage made of 300 letters followed by the
three marker characters, the truncated form equals the passage itself, so
the assembled context does contain the full passage even though its length
exceeds the 300-character bound. -/
theorem truncation_keeps_full_passage_counterexample :
    300 < (List.replicate 300 'a' ++ "...".data).length ∧
    truncatePassage (List.replicate 300 'a' ++ "...".data) =
      List.replicate 300 'a' ++ "...".data ∧
    extractContextPassages (mkResults [List.replicate 300 'a' ++ "...".data]) =
      [List.replicate 300 'a' ++ "...".data] := by
  have hl : 300 < (List.replicate 300 'a' ++ "...".data).length := by decide
  have ht : truncatePassage (List.replicate 300 'a' ++ "...".data) =
      List.replicate 300 'a' ++ "...".data := by
    rw [truncatePassage, if_pos hl, List.take_left' (by decide)]
  refine ⟨hl, ht, ?_⟩
  rw [extract_mkResults, List.map_cons, List.map_nil, ht]

/-- C5 (amended): a retrieved passage longer than 300 characters contributes
exactly its 300-character prefix followed by the marker to the context, a
passage of at most 300 characters is included verbatim, and the truncated
form differs from the full passage whenever the characters of the passage from
position 300 on are not exactly the marker. -/
theorem truncation_in_context (p q : List Char) (hp : 300 < p.length)
    (hq : q.length ≤ 300) (hdrop : p.drop 300 ≠ "...".data) :
    extractContextPassages (mkResults [p, q]) = [p.take 300 ++ "...".data, q] ∧
    truncatePassage p ≠ p ∧ truncatePassage q = q := by
  have htp : truncatePassage p = p.take 300 ++ "...".data := by
    rw [truncatePassage, if_pos hp]
  have htq : truncatePassage q = q := by
    rw [truncatePassage, if_neg (by omega)]
  refine ⟨?_, ?_, htq⟩
  · rw [extract_mkResults]
    simp [htp, htq]
  · rw [htp]
    intro hcontr
    have hlen : (p.take 300).length = 300 := by
      rw [List.length_take]
      omega
    have hd := congrArg (List.drop 300) hcontr
    rw [List.drop_left' hlen] at hd
    exact hdrop hd.symm

/-- C5 witness: the amended truncation statement at a 301-character passage
and a 2-character passage. -/
theorem truncation_in_context_witness :
    300 < (List.replicate 301 'a').length ∧ ("hi".data).length ≤ 300 ∧
    (List.replicate 301 'a').drop 300 ≠ "...".data ∧
    truncatePassage (List.replicate 301 'a') ≠ List.replicate 301 'a' := by
  have h1 : 300 < (List.replicate 301 'a').length := by decide
  have h2 : ("hi".data).length ≤ 300 := by decide
  have h3 : (List.replicate 301 'a').drop 300 ≠ "...".data := by decide
  exact ⟨h1, h2, h3, (truncation_in_context (List.replicate 301 'a') "hi".data h1 h2 h3).2.1⟩

/-- C6 counterexample: with the search backend reachable and the grounded
path raising no exception, a malformed chat response on the grounded prompt
makes the function return the absence sentinel directly, without attempting
the fallback, even though the plain query on the original question would
have succeeded. -/
theorem rag_none_without_fallback_counterexample :
    query_gemma3_model_with_rag wMalformedRag "hi".data = none ∧
    query_gemma3_model wMalformedRag "hi".data = some "ok".data := by
  constructor
  · rfl
  · rfl

/-- C6 (amended): query_gemma3_model_with_rag is total (it never propagates
a failure); a ping exception, a false ping, a search exception or a chat
exception on the grounded prompt each make it fall back to the plain query
on the original question; when the chat call on the grounded prompt
succeeds, its possibly-absent content is returned directly, so the absence
sentinel can also arise from a malformed grounded-path response with no
fallback attempted. -/
theorem rag_fallback_behaviour (w : RagWorld) (p : List Char) :
    (∀ e, w.ping = .error e →
      query_gemma3_model_with_rag w p = query_gemma3_model w p) ∧
    (w.ping = .ok false →
      query_gemma3_model_with_rag w p = query_gemma3_model w p) ∧
    (∀ e, w.ping = .ok true → w.search = .error e →
      query_gemma3_model_with_rag w p = query_gemma3_model w p) ∧
    (∀ res e, w.ping = .ok true → w.search = .ok res →
      w.chat (ragPromptFor p res) = .error e →
      query_gemma3_model_with_rag w p = query_gemma3_model w p) ∧
    (∀ res content, w.ping = .ok true → w.search = .ok res →
      w.chat (ragPromptFor p res) = .ok content →
      query_gemma3_model_with_rag w p = content) := by
  refine ⟨?_, ?_, ?_, ?_, ?_⟩
  · intro e hping
    unfold query_gemma3_model_with_rag
    rw [hping]
  · intro hping
    unfold query_gemma3_model_with_rag
    rw [hping]
  · intro e hping hsearch
    unfold query_gemma3_model_with_rag
    rw [hping, hsearch]
  · intro res e hping hsearch hchat
    unfold query_gemma3_model_with_rag
    rw [hping, hsearch]
    show (match w.chat (ragPromptFor p res) with
      | .error _ => query_gemma3_model w p
      | .ok content => content) = query_gemma3_model w p
    rw [hchat]
  · intro res content hping hsearch hchat
    unfold query_gemma3_model_with_rag
    rw [hping, hsearch]
    show (match w.chat (ragPromptFor p res) with
      | .error _ => query_gemma3_model w p
      | .ok content => content) = content
    rw [hchat]

/-- C6 witness: the amended fallback behaviour applied at concrete worlds
for each of its five cases. -/
theorem rag_fallback_behaviour_witness :
    query_gemma3_model_with_rag wPingErr "q".data = query_gemma3_model wPingErr "q".data ∧
    query_gemma3_model_with_rag wPingFalse "q".data = query_gemma3_model wPingFalse "q".data ∧
    query_gemma3_model_with_rag wSearchErr "q".data = query_gemma3_model wSearchErr "q".data ∧
    query_gemma3_model_with_rag wRagChatErr "q".data = query_gemma3_model wRagChatErr "q".data ∧
    query_gemma3_model_with_rag wOnlyCorrect "q".data = some "CORRECT".data :=
  ⟨(rag_fallback_behaviour wPingErr "q".data).1 "connect timeout" rfl,
    (rag_fallback_behaviour wPingFalse "q".data).2.1 rfl,
    (rag_fallback_behaviour wSearchErr "q".data).2.2.1 "search exploded" rfl rfl,
    (rag_fallback_behaviour wRagChatErr "q".data).2.2.2.1 emptyResults "boom" rfl rfl rfl,
    (rag_fallback_behaviour wOnlyCorrect "q".data).2.2.2.2 emptyResults (some "CORRECT".data)
      rfl rfl rfl⟩

theorem waitGo_timedOut_at (f : Nat → TaskResponse) (op : String) (m : Option String)
    (t k : Nat) (hkt : ¬ 5 * k < t) :
    waitGo f op m t k = ⟨.timedOut, k, k⟩ := by
  conv_lhs => rw [waitGo.eq_def]
  rw [dif_neg hkt]

theorem waitGo_step (f : Nat → TaskResponse) (op : String) (m : Option String)
    (t k : Nat) (hkt : 5 * k < t) (hnt : nonTerminal (f k)) :
    waitGo f op m t k = waitGo f op m t (k + 1) := by
  conv_lhs => rw [waitGo.eq_def]
  rw [dif_pos hkt, if_neg (fun hc => hnt.1 hc.1), if_neg (fun hc => hnt.1 hc.1),
    if_neg hnt.2]

theorem waitGo_failed_at (f : Nat → TaskResponse) (op : String) (m : Option String)
    (t k : Nat) (hkt : 5 * k < t) (hfail : (f k).state = some "FAILED") :
    waitGo f op m t k = ⟨.taskFailed (((f k).error).getD "Unknown error"), k + 1, k⟩ := by
  conv_lhs => rw [waitGo.eq_def]
  rw [dif_pos hkt,
    if_neg (fun hc => absurd (hc.1.symm.trans hfail)
      (by decide : ¬ ((some "COMPLETED" : Option String) = some "FAILED"))),
    if_neg (fun hc => absurd (hc.1.symm.trans hfail)
      (by decide : ¬ ((some "COMPLETED" : Option String) = some "FAILED"))),
    if_pos hfail]

theorem waitGo_completed_reg_at (f : Nat → TaskResponse) (m : Option String)
    (t k : Nat) (hkt : 5 * k < t) (hC : (f k).state = some "COMPLETED") :
    waitGo f "registration" m t k = ⟨.completed ((f k).model_id), k + 1, k⟩ := by
  conv_lhs => rw [waitGo.eq_def]
  rw [dif_pos hkt, if_pos ⟨hC, rfl⟩]

theorem waitGo_completed_dep_at (f : Nat → TaskResponse) (m : Option String)
    (t k : Nat) (hkt : 5 * k < t) (hC : (f k).state = some "COMPLETED") :
    waitGo f "deployment" m t k = ⟨.completed m, k + 1, k⟩ := by
  conv_lhs => rw [waitGo.eq_def]
  rw [dif_pos hkt,
    if_neg (fun hc => absurd hc.2 (by decide : ¬ ("deployment" = "registration"))),
    if_pos ⟨hC, rfl⟩]

theorem waitGo_timedOut_iff (f : Nat → TaskResponse) (op : String) (m : Option String)
    (t : Nat) (hop : op = "registration" ∨ op = "deployment") :
    ∀ n k, t - 5 * k ≤ n →
      ((waitGo f op m t k).outcome = PollOutcome.timedOut ↔
        ∀ j, k ≤ j → 5 * j < t → nonTerminal (f j)) := by
  intro n
  induction n with
  | zero =>
    intro k hk
    rw [waitGo_timedOut_at f op m t k (by omega)]
    constructor
    · intro _ j hj hjt
      exact absurd hjt (by omega)
    · intro _
      rfl
  | succ n ih =>
    intro k hk
    by_cases hlt : 5 * k < t
    · by_cases hC : (f k).state = some "COMPLETED"
      · have houtcome : ∃ mid, (waitGo f op m t k).outcome = PollOutcome.completed mid := by
          rcases hop with hreg | hdep
          · subst hreg
            rw [waitGo_completed_reg_at f m t k hlt hC]
            exact ⟨_, rfl⟩
          · subst hdep
            rw [waitGo_completed_dep_at f m t k hlt hC]
            exact ⟨m, rfl⟩
        rcases houtcome with ⟨mid, hmid⟩
        rw [hmid]
        constructor
        · intro habs
          exact PollOutcome.noConfusion habs
        · intro hall
          exact absurd hC (hall k le_rfl hlt).1
      · by_cases hF : (f k).state = some "FAILED"
        · rw [waitGo_failed_at f op m t k hlt hF]
          constructor
          · intro habs
            exact PollOutcome.noConfusion habs
          · intro hall
            exact absurd hF (hall k le_rfl hlt).2
        · have hnt : nonTerminal (f k) := ⟨hC, hF⟩
          rw [waitGo_step f op m t k hlt hnt, ih (k + 1) (by omega)]
          constructor
          · intro hall j hj hjt
            rcases Nat.eq_or_lt_of_le hj with heq | hlt2
            · subst heq
              exact hnt
            · exact hall j hlt2 hjt
          · intro hall j hj hjt
            exact hall j (by omega) hjt
    · rw [waitGo_timedOut_at f op m t k hlt]
      constructor
      · intro _ j hj hjt
        exact absurd hjt (by omega)
      · intro _
        rfl

theorem waitGo_failed_run (f : Nat → TaskResponse) (op : String) (m : Option String)
    (t j : Nat) (hjt : 5 * j < t) (hfail : (f j).state = some "FAILED") :
    ∀ n k, j - k ≤ n → k ≤ j → (∀ i, k ≤ i → i < j → nonTerminal (f i)) →
      waitGo f op m t k = ⟨.taskFailed (((f j).error).getD "Unknown error"), j + 1, j⟩ := by
  intro n
  induction n with
  | zero =>
    intro k hkn hkj hpre
    have heq : k = j := by omega
    subst heq
    exact waitGo_failed_at f op m t k hjt hfail
  | succ n ih =>
    intro k hkn hkj hpre
    by_cases heq : k = j
    · subst heq
      exact waitGo_failed_at f op m t k hjt hfail
    · have hklt : k < j := by omega
      have hnt : nonTerminal (f k) := hpre k le_rfl hklt
      rw [waitGo_step f op m t k (by omega) hnt]
      exact ih (k + 1) (by omega) (by omega) (fun i hi1 hi2 => hpre i (by omega) hi2)

/-- C3: the poller times out exactly when every status fetched inside the
timeout window is non-terminal, and a first FAILED status within the window
ends the run on that same poll cycle with the reported task error message,
with no sleep after the failing fetch and no dependence on any status after
it. -/
theorem poller_timeout_and_failure (f : Nat → TaskResponse) (op : String) (m : Option String)
    (t : Nat) (hop : op = "registration" ∨ op = "deployment") :
    ((wait_for_task_completion f op m t).outcome = PollOutcome.timedOut ↔
      ∀ j, 5 * j < t → nonTerminal (f j)) ∧
    (∀ j, 5 * j < t → (∀ i, i < j → nonTerminal (f i)) → (f j).state = some "FAILED" →
      wait_for_task_completion f op m t =
        ⟨.taskFailed (((f j).error).getD "Unknown error"), j + 1, j⟩ ∧
      ∀ f2 : Nat → TaskResponse, (∀ i, i ≤ j → f2 i = f i) →
        wait_for_task_completion f2 op m t = wait_for_task_completion f op m t) := by
  constructor
  · have h := waitGo_timedOut_iff f op m t hop t 0 (by omega)
    unfold wait_for_task_completion
    rw [h]
    constructor
    · intro hall j hjt
      exact hall j (Nat.zero_le j) hjt
    · intro hall j _ hjt
      exact hall j hjt
  · intro j hjt hpre hfail
    have hrun : wait_for_task_completion f op m t =
        ⟨.taskFailed (((f j).error).getD "Unknown error"), j + 1, j⟩ :=
      waitGo_failed_run f op m t j hjt hfail j 0 (by omega) (by omega)
        (fun i _ hi2 => hpre i hi2)
    refine ⟨hrun, ?_⟩
    intro f2 hagree
    have hfail2 : (f2 j).state = some "FAILED" := by
      rw [hagree j le_rfl]
      exact hfail
    have herr2 : (f2 j).error = (f j).error := by
      rw [hagree j le_rfl]
    have hrun2 : wait_for_task_completion f2 op m t =
        ⟨.taskFailed (((f2 j).error).getD "Unknown error"), j + 1, j⟩ :=
      waitGo_failed_run f2 op m t j hjt hfail2 j 0 (by omega) (by omega)
        (fun i hi1 hi2 => by
          rw [hagree i (by omega)]
          exact hpre i hi2)
    rw [hrun2, hrun, herr2]

/-- C3 witness: the poller applied to a trace that runs once and then fails
with message boom, inside a 300-second timeout. -/
theorem poller_timeout_and_failure_witness :
    wait_for_task_completion fetchFail "registration" none 300 =
      ⟨.taskFailed "boom", 2, 1⟩ := by
  have h := (poller_timeout_and_failure fetchFail "registration" none 300 (Or.inl rfl)).2 1
    (by omega)
    (fun i hi => by
      have hi0 : i = 0 := by omega
      subst hi0
      decide)
    rfl
  exact h.1

/-- C4: on the trace RUNNING, RUNNING, COMPLETED with model id m1, and a
timeout that has not yet elapsed at the third check, the poller sleeps
exactly twice, fetches exactly three times, and returns m1. -/
theorem poller_scenario_m1 (t : Nat) (h : 10 < t) :
    wait_for_task_completion fetchC4 "registration" none t =
      ⟨.completed (some "m1"), 3, 2⟩ := by
  unfold wait_for_task_completion
  rw [waitGo_step fetchC4 "registration" none t 0 (by omega) (by decide),
    waitGo_step fetchC4 "registration" none t 1 (by omega) (by decide),
    waitGo_completed_reg_at fetchC4 none t 2 (by omega) (by decide)]
  rfl

/-- C4 witness: the scenario at the concrete default timeout of 300. -/
theorem poller_scenario_m1_witness :
    10 < 300 ∧
    wait_for_task_completion fetchC4 "registration" none 300 =
      ⟨.completed (some "m1"), 3, 2⟩ :=
  ⟨by omega, poller_scenario_m1 300 (by omega)⟩

theorem verifyGo_timedOut_at (f : Nat → Except String (Option String)) (t k : Nat)
    (hkt : ¬ 10 * k < t) :
    verifyGo f t k = ⟨.timedOut, k, k⟩ := by
  conv_lhs => rw [verifyGo.eq_def]
  rw [dif_neg hkt]

theorem verifyGo_ready_at (f : Nat → Except String (Option String)) (t k : Nat)
    (hkt : 10 * k < t) (hdep : f k = .ok (some "DEPLOYED")) :
    verifyGo f t k = ⟨.ready, k + 1, k⟩ := by
  conv_lhs => rw [verifyGo.eq_def]
  rw [dif_pos hkt, if_pos hdep]

theorem verifyGo_step (f : Nat → Except String (Option String)) (t k : Nat)
    (hkt : 10 * k < t) (hne : ¬ f k = .ok (some "DEPLOYED")) :
    verifyGo f t k = verifyGo f t (k + 1) := by
  conv_lhs => rw [verifyGo.eq_def]
  rw [dif_pos hkt, if_neg hne]

theorem verifyGo_ready_iff (f : Nat → Except String (Option String)) (t : Nat) :
    ∀ n k, t - 10 * k ≤ n →
      ((verifyGo f t k).outcome = VerifyOutcome.ready ↔
        ∃ j, k ≤ j ∧ 10 * j < t ∧ f j = .ok (some "DEPLOYED")) := by
  intro n
  induction n with
  | zero =>
    intro k hk
    rw [verifyGo_timedOut_at f t k (by omega)]
    constructor
    · intro habs
      exact VerifyOutcome.noConfusion habs
    · rintro ⟨j, hj1, hj2, _⟩
      exact absurd hj2 (by omega)
  | succ n ih =>
    intro k hk
    by_cases hlt : 10 * k < t
    · by_cases hdep : f k = .ok (some "DEPLOYED")
      · rw [verifyGo_ready_at f t k hlt hdep]
        constructor
        · intro _
          exact ⟨k, le_rfl, hlt, hdep⟩
        · intro _
          rfl
      · rw [verifyGo_step f t k hlt hdep, ih (k + 1) (by omega)]
        constructor
        · rintro ⟨j, hj1, hj2, hj3⟩
          exact ⟨j, by omega, hj2, hj3⟩
        · rintro ⟨j, hj1, hj2, hj3⟩
          rcases Nat.eq_or_lt_of_le hj1 with heq | hlt2
          · subst heq
            exact absurd hj3 hdep
          · exact ⟨j, hlt2, hj2, hj3⟩
    · rw [verifyGo_timedOut_at f t k hlt]
      constructor
      · intro habs
        exact VerifyOutcome.noConfusion habs
      · rintro ⟨j, hj1, hj2, _⟩
        exact absurd hj2 (by omega)

theorem verifyRun_outcome_cases (r : VerifyRun) :
    r.outcome = VerifyOutcome.ready ∨ r.outcome = VerifyOutcome.timedOut := by
  cases h : r.outcome
  · exact Or.inl rfl
  · exact Or.inr rfl

/-- C7: the readiness poll returns ready exactly when some status fetch
inside its own timeout window reports the model state DEPLOYED; every other
fetched state and every fetch error only makes it retry, and it times out
exactly when no fetch inside the window reports DEPLOYED. -/
theorem readiness_poll_spec (f : Nat → Except String (Option String)) (t : Nat) :
    ((verify_model_ready f t).outcome = VerifyOutcome.ready ↔
      ∃ j, 10 * j < t ∧ f j = .ok (some "DEPLOYED")) ∧
    ((verify_model_ready f t).outcome = VerifyOutcome.timedOut ↔
      ∀ j, 10 * j < t → f j ≠ .ok (some "DEPLOYED")) := by
  have hready : (verify_model_ready f t).outcome = VerifyOutcome.ready ↔
      ∃ j, 10 * j < t ∧ f j = .ok (some "DEPLOYED") := by
    unfold verify_model_ready
    rw [verifyGo_ready_iff f t t 0 (by omega)]
    constructor
    · rintro ⟨j, _, hj2, hj3⟩
      exact ⟨j, hj2, hj3⟩
    · rintro ⟨j, hj2, hj3⟩
      exact ⟨j, Nat.zero_le j, hj2, hj3⟩
  refine ⟨hready, ?_, ?_⟩
  · intro htO j hjt hdep
    have hr : (verify_model_ready f t).outcome = VerifyOutcome.ready :=
      hready.mpr ⟨j, hjt, hdep⟩
    rw [htO] at hr
    exact VerifyOutcome.noConfusion hr
  · intro hall
    rcases verifyRun_outcome_cases (verify_model_ready f t) with hr | hr
    · rcases hready.mp hr with ⟨j, hjt, hdep⟩
      exact absurd hdep (hall j hjt)
    · exact hr

/-- C7 witness: the readiness poll at a trace that reports DEPLOYED at once
returns ready. -/
theorem readiness_poll_spec_witness :
    (verify_model_ready fetchDeployed 300).outcome = VerifyOutcome.ready :=
  (readiness_poll_spec fetchDeployed 300).1.mpr ⟨0, by omega, rfl⟩

/-- C8: for every world, sample list and RAG flag, the evaluation loop
returns hard-coded zero counts: correct_count and percentage are 0 no matter
what answers were produced, while the answer pairs and total_questions do
track the input samples. -/
theorem evaluate_counts_are_stubbed (w : RagWorld) (qa : List QASample) (useRag : Bool) :
    (evaluate_with_ollama w qa useRag).correct_count = 0 ∧
    (evaluate_with_ollama w qa useRag).percentage = 0 ∧
    (evaluate_with_ollama w qa useRag).total_questions = qa.length ∧
    (evaluate_with_ollama w qa useRag).answer_pairs.length = qa.length := by
  cases qa with
  | nil => simp [evaluate_with_ollama]
  | cons hd tl => simp [evaluate_with_ollama]

/-- C9: neural search raises before building any request when the model-id
environment variable is absent or empty, and otherwise submits a query
embedding exactly the value of the variable as the model id. -/
theorem neural_search_model_id (env : Option String) (qt : List Char) (k size : Nat) :
    ((env = none ∨ env = some "") →
      search_wikipedia_articles env qt k size =
        .error "OPENSEARCH_MODEL_ID environment variable not set. Please run opensearch_setup.py first.") ∧
    (∀ m, env = some m → m ≠ "" →
      search_wikipedia_articles env qt k size =
        .ok ⟨["passage_embedding"], size, qt, m, k⟩) := by
  constructor
  · rintro (rfl | rfl) <;> simp [search_wikipedia_articles]
  · rintro m rfl hm
    simp [search_wikipedia_articles, hm]

/-- C9 witness: the absent-variable error and the embedded model id at
concrete inputs. -/
theorem neural_search_model_id_witness :
    search_wikipedia_articles none "q".data 5 5 =
      .error "OPENSEARCH_MODEL_ID environment variable not set. Please run opensearch_setup.py first." ∧
    ("mid" : String) ≠ "" ∧
    search_wikipedia_articles (some "mid") "q".data 5 5 =
      .ok ⟨["passage_embedding"], 5, "q".data, "mid", 5⟩ :=
  ⟨(neural_search_model_id none "q".data 5 5).1 (Or.inl rfl), by decide,
    (neural_search_model_id (some "mid") "q".data 5 5).2 "mid" rfl (by decide)⟩

theorem foldl_correct_count (w : RagWorld) (l : List AnswerPair) (acc : Nat) :
    l.foldl
      (fun acc pr =>
        if pr.gemma_answer = noResponseChars then acc
        else if compare_answers_with_gemma w pr.gemma_answer pr.correct_answer = "CORRECT" then
          acc + 1
        else acc) acc =
    acc + (l.filter fun pr =>
      !(pr.gemma_answer == noResponseChars) &&
        (compare_answers_with_gemma w pr.gemma_answer pr.correct_answer == "CORRECT")).length := by
  induction l generalizing acc with
  | nil => simp
  | cons hd tl ih =>
    simp only [List.foldl_cons, List.filter_cons]
    by_cases h1 : hd.gemma_answer = noResponseChars
    · rw [if_pos h1, ih]
      simp [h1]
    · rw [if_neg h1]
      by_cases h2 : compare_answers_with_gemma w hd.gemma_answer hd.correct_answer = "CORRECT"
      · rw [if_pos h2, ih]
        simp [h1, h2]
        omega
      · rw [if_neg h2, ih]
        simp [h1, h2]

theorem length_filter_and_le {α : Type} (p q : α → Bool) (l : List α) :
    (l.filter fun a => p a && q a).length ≤ (l.filter p).length := by
  induction l with
  | nil => simp
  | cons hd tl ih =>
    simp only [List.filter_cons]
    by_cases hp : p hd
    · by_cases hq : q hd
      · simp [hp, hq]
        omega
      · simp [hp, hq]
        omega
    · simp [hp]
      exact ih

/-- C10: the accuracy aggregation keeps every pair in the reported total,
counts as correct exactly the pairs that both differ from the no-response
sentinel and are judged CORRECT (so a sentinel pair can never increment the
count, whatever the judge would say), and divides that count by the number
of all pairs for the percentage, making sentinel pairs count as incorrect. -/
theorem accuracy_skips_no_response (w : RagWorld) (er : EvalResult) :
    (calculate_accuracy w er).1 = er.answer_pairs.length ∧
    (calculate_accuracy w er).2.1 =
      (er.answer_pairs.filter fun pr =>
        !(pr.gemma_answer == noResponseChars) &&
          (compare_answers_with_gemma w pr.gemma_answer pr.correct_answer == "CORRECT")).length ∧
    (calculate_accuracy w er).2.1 ≤
      (er.answer_pairs.filter fun pr => !(pr.gemma_answer == noResponseChars)).length ∧
    (er.answer_pairs ≠ [] →
      (calculate_accuracy w er).2.2 =
        (((calculate_accuracy w er).2.1 : ℚ) / (er.answer_pairs.length : ℚ)) * 100) := by
  by_cases h : er.answer_pairs.isEmpty
  · have hnil : er.answer_pairs = [] := List.isEmpty_iff.mp h
    unfold calculate_accuracy
    rw [if_pos h]
    simp [hnil]
  · have hcount : (calculate_accuracy w er).2.1 =
        (er.answer_pairs.filter fun pr =>
          !(pr.gemma_answer == noResponseChars) &&
            (compare_answers_with_gemma w pr.gemma_answer pr.correct_answer == "CORRECT")).length := by
      unfold calculate_accuracy
      rw [if_neg h]
      show er.answer_pairs.foldl _ 0 = _
      rw [foldl_correct_count]
      simp
    have htotal : (calculate_accuracy w er).1 = er.answer_pairs.length := by
      unfold calculate_accuracy
      rw [if_neg h]
    refine ⟨htotal, hcount, ?_, ?_⟩
    · rw [hcount]
      exact length_filter_and_le _ _ er.answer_pairs
    · intro hne
      have hpos : 0 < er.answer_pairs.length := List.length_pos.mpr hne
      have hperc : (calculate_accuracy w er).2.2 =
          (((calculate_accuracy w er).2.1 : ℚ) / (er.answer_pairs.length : ℚ)) * 100 := by
        unfold calculate_accuracy
        rw [if_neg h]
        show (if 0 < er.answer_pairs.length then _ else (0 : ℚ)) = _
        rw [if_pos hpos]
      exact hperc

/-- C10 witness: the aggregation at a single pair holding the no-response
sentinel, under a judge whose backend would answer CORRECT: the pair stays
in the total, is never counted correct, and yields a zero percentage. -/
theorem accuracy_skips_no_response_witness :
    erNR.answer_pairs ≠ [] ∧
    (calculate_accuracy wOnlyCorrect erNR).1 = 1 ∧
    (calculate_accuracy wOnlyCorrect erNR).2.1 = 0 ∧
    (calculate_accuracy wOnlyCorrect erNR).2.2 = 0 := by
  have hne : erNR.answer_pairs ≠ [] := by simp [erNR]
  have h := accuracy_skips_no_response wOnlyCorrect erNR
  have hflt : (erNR.answer_pairs.filter fun pr =>
      !(pr.gemma_answer == noResponseChars) &&
        (compare_answers_with_gemma wOnlyCorrect pr.gemma_answer pr.correct_answer ==
          "CORRECT")).length = 0 := by
    simp [erNR, List.filter]
  have hcor : (calculate_accuracy wOnlyCorrect erNR).2.1 = 0 := by
    rw [h.2.1, hflt]
  refine ⟨hne, ?_, hcor, ?_⟩
  · rw [h.1]
    rfl
  · rw [h.2.2.2 hne, hcor]
    norm_num
